import Mathlib

/-!
Verification of the tabular join-and-load pipeline implemented by the
instructional notebooks of this repository (CSV ingestion with pandas,
SQLite population, RDF graph population, and the `Venue`/`Publication`
Python class hierarchy).

The Python code is shallowly embedded: data frames become lists of
records, the synthetic-identifier assignment becomes a list map over
positions, `pandas.merge(..., how=left)` becomes an explicit left-outer
merge on string keys, the SQLite batch of `part_000` becomes explicit
state passing over a database value together with a trace of connection
events, and the rdflib graph-population loops of the notebook on graph
databases become functions producing lists of subject-predicate-object
triples.
-/

/-- Characters of the decimal representation of a natural number, most
significant digit first, by repeated division by ten.  This models the
string built by Python's built-in `str(i)` for the non-negative row
indices used by the notebooks. -/
def toDecimalChars (n : Nat) : List Char :=
  if _h : n < 10 then [Nat.digitChar n]
  else toDecimalChars (n / 10) ++ [Nat.digitChar (n % 10)]
termination_by n
decreasing_by
  exact Nat.div_lt_self (by omega) (by omega)

/-- The decimal string `str(i)` produced by Python for a row index. -/
def pyStr (n : Nat) : String :=
  (toDecimalChars n).asString

theorem digitChar_inj_below_ten :
    ∀ a < 10, ∀ b < 10, Nat.digitChar a = Nat.digitChar b → a = b := by
  decide

theorem toDecimalChars_lt {n : Nat} (h : n < 10) :
    toDecimalChars n = [Nat.digitChar n] := by
  rw [toDecimalChars, dif_pos h]

theorem toDecimalChars_ge {n : Nat} (h : ¬n < 10) :
    toDecimalChars n = toDecimalChars (n / 10) ++ [Nat.digitChar (n % 10)] := by
  conv_lhs => rw [toDecimalChars]
  rw [dif_neg h]

theorem toDecimalChars_ne_nil (n : Nat) : toDecimalChars n ≠ [] := by
  by_cases h : n < 10
  · rw [toDecimalChars_lt h]; simp
  · rw [toDecimalChars_ge h]; simp

theorem toDecimalChars_inj : ∀ a b : Nat, toDecimalChars a = toDecimalChars b → a = b := by
  intro a
  induction a using Nat.strong_induction_on with
  | _ a ih =>
    intro b h
    by_cases ha : a < 10 <;> by_cases hb : b < 10
    · rw [toDecimalChars_lt ha, toDecimalChars_lt hb] at h
      simp only [List.cons.injEq, and_true] at h
      exact digitChar_inj_below_ten a ha b hb h
    · rw [toDecimalChars_lt ha, toDecimalChars_ge hb] at h
      have hlen := congrArg List.length h
      have hne := toDecimalChars_ne_nil (b / 10)
      simp only [List.length_cons, List.length_nil, List.length_append] at hlen
      cases hcase : toDecimalChars (b / 10) with
      | nil => exact absurd hcase hne
      | cons c cs => rw [hcase] at hlen; simp at hlen
    · rw [toDecimalChars_ge ha, toDecimalChars_lt hb] at h
      have hlen := congrArg List.length h
      have hne := toDecimalChars_ne_nil (a / 10)
      simp only [List.length_cons, List.length_nil, List.length_append] at hlen
      cases hcase : toDecimalChars (a / 10) with
      | nil => exact absurd hcase hne
      | cons c cs => rw [hcase] at hlen; simp at hlen
    · rw [toDecimalChars_ge ha, toDecimalChars_ge hb] at h
      have hrev := congrArg List.reverse h
      simp only [List.reverse_append, List.reverse_cons, List.reverse_nil,
        List.nil_append, List.cons_append, List.cons.injEq] at hrev
      obtain ⟨hdig, htail⟩ := hrev
      have htails : toDecimalChars (a / 10) = toDecimalChars (b / 10) := by
        have := congrArg List.reverse htail
        simpa using this
      have hdiv : a / 10 = b / 10 :=
        ih (a / 10) (Nat.div_lt_self (by omega) (by omega)) (b / 10) htails
      have hmod : a % 10 = b % 10 :=
        digitChar_inj_below_ten (a % 10) (Nat.mod_lt a (by omega)) (b % 10)
          (Nat.mod_lt b (by omega)) hdig
      omega

theorem pyStr_inj : ∀ a b : Nat, pyStr a = pyStr b → a = b := by
  intro a b h
  exact toDecimalChars_inj a b (List.asString_inj.mp h)

/-- Synthetic-identifier assignment.  The notebooks build, for a data
frame of `n` rows, the list of strings `pre + "-" + str(i)` for
`i in range(n)` (the source writes the hyphen inside the literal, e.g.
`'biblio-' + str(i)`, `'publisher-' + str(i)`, `"venue-" + str(idx)`)
and attach the `i`-th string to the `i`-th row.  Here a record of any
type is paired with its identifier. -/
def assignIdentifiers {α : Type} (pre : String) (records : List α) :
    List (α × String) :=
  records.enum.map (fun p => (p.2, pre ++ "-" ++ pyStr p.1))

theorem assignIdentifiers_getElem {α : Type} (pre : String) (records : List α)
    (i : Nat) (hi : i < records.length) :
    (assignIdentifiers pre records)[i]? =
      some (records.get ⟨i, hi⟩, pre ++ "-" ++ pyStr i) := by
  simp [assignIdentifiers, List.getElem?_map, List.getElem?_enum,
    List.getElem?_eq_getElem hi]

theorem append_left_cancel_str {s a b : String} (h : s ++ a = s ++ b) : a = b := by
  have hdata : (s ++ a).data = (s ++ b).data := congrArg String.data h
  simp only [String.data_append] at hdata
  exact String.ext (List.append_cancel_left hdata)

theorem assignIdentifiers_snd_inj (pre : String) :
    Function.Injective (fun i => pre ++ "-" ++ pyStr i) := by
  intro i j h
  simp only at h
  have h1 : (pre ++ "-") ++ pyStr i = (pre ++ "-") ++ pyStr j := by
    simpa [String.append_assoc] using h
  exact pyStr_inj i j (append_left_cancel_str h1)

theorem assignIdentifiers_ids_nodup {α : Type} (pre : String) (records : List α) :
    ((assignIdentifiers pre records).map Prod.snd).Nodup := by
  have hform : (assignIdentifiers pre records).map Prod.snd =
      (List.range records.length).map (fun i => pre ++ "-" ++ pyStr i) := by
    rw [← List.enum_map_fst records]
    simp only [assignIdentifiers, List.map_map]
    rfl
  rw [hform]
  exact (List.nodup_range records.length).map (assignIdentifiers_snd_inj pre)

/-- C4: for every record set and prefix, the `i`-th record (0-based) of
the result of identifier assignment carries the identifier built by
concatenating the prefix, a hyphen and the decimal index `i`, and the
identifiers assigned within the set are pairwise distinct. -/
theorem claim_assignIdentifiers_positional_and_distinct {α : Type}
    (pre : String) (records : List α) :
    (∀ i, ∀ hi : i < records.length,
        (assignIdentifiers pre records)[i]? =
          some (records.get ⟨i, hi⟩, pre ++ "-" ++ pyStr i)) ∧
    ((assignIdentifiers pre records).map Prod.snd).Nodup :=
  ⟨fun i hi => assignIdentifiers_getElem pre records i hi,
   assignIdentifiers_ids_nodup pre records⟩

/-- Witness for C4 at a concrete two-row record set. -/
theorem claim_assignIdentifiers_positional_and_distinct_witness :
    (1 < (["rowA", "rowB"] : List String).length) ∧
    (assignIdentifiers "biblio" ["rowA", "rowB"])[1]? =
      some ("rowB", "biblio" ++ "-" ++ pyStr 1) ∧
    ((assignIdentifiers "biblio" ["rowA", "rowB"]).map Prod.snd).Nodup :=
  ⟨by decide,
   (claim_assignIdentifiers_positional_and_distinct "biblio" ["rowA", "rowB"]).1
      1 (by decide),
   (claim_assignIdentifiers_positional_and_distinct "biblio" ["rowA", "rowB"]).2⟩

/-- C5: identifier assignment is a deterministic, pure function of the
row position: two runs over record sets presenting rows in the same
order (here: any two record sets long enough to have an `i`-th row)
attach the same identifier at the same position `i`. -/
theorem claim_assignIdentifiers_stable {α β : Type} (pre : String)
    (xs : List α) (ys : List β) (i : Nat)
    (hx : i < xs.length) (hy : i < ys.length) :
    ((assignIdentifiers pre xs).map Prod.snd)[i]? =
      ((assignIdentifiers pre ys).map Prod.snd)[i]? := by
  rw [List.getElem?_map, List.getElem?_map,
    assignIdentifiers_getElem pre xs i hx, assignIdentifiers_getElem pre ys i hy]
  rfl

/-- Witness for C5: two different concrete record sets receive the same
identifier at position 1. -/
theorem claim_assignIdentifiers_stable_witness :
    (1 < (["rowA", "rowB"] : List String).length) ∧
    (1 < ([10, 20, 30] : List Nat).length) ∧
    ((assignIdentifiers "publisher" ["rowA", "rowB"]).map Prod.snd)[1]? =
      ((assignIdentifiers "publisher" [10, 20, 30]).map Prod.snd)[1]? :=
  ⟨by decide, by decide,
   claim_assignIdentifiers_stable "publisher" ["rowA", "rowB"] [10, 20, 30] 1
     (by decide) (by decide)⟩

/-- Left-outer merge on string key columns, modelling
`pd.merge(L, R, left_on, right_on, how="left")` as used by the
notebooks (`left_on="publisher"`/`right_on="id"` and
`left_on="publication venue"`/`right_on="id"`): every left record is
kept in order; it is paired with each right record whose key equals its
own, in right order, and with no right record when no key matches. -/
def leftMerge {α β : Type} (lk : α → String) (rk : β → String)
    (L : List α) (R : List β) : List (α × Option β) :=
  L.flatMap (fun l =>
    let ms := R.filter (fun r => rk r == lk l)
    if ms.isEmpty then [(l, none)]
    else ms.map (fun r => (l, some r)))

/-- Counterexample to C1: with one left record and two right records
sharing the matched key, the left-outer merge has two rows, not one,
so the output length differs from the left length and the left record
is duplicated. -/
theorem claim_join_preserves_left_cardinality_counterexample :
    ¬ ((leftMerge (fun l => l) (fun r => r.1)
          ["crossref:15"]
          [("crossref:15", "dupA"), ("crossref:15", "dupB")]).length =
        (["crossref:15"] : List String).length) := by
  decide

theorem leftMerge_cons {α β : Type} (lk : α → String) (rk : β → String)
    (a : α) (L : List α) (R : List β) :
    leftMerge lk rk (a :: L) R =
      (if (R.filter (fun r => rk r == lk a)).isEmpty then [(a, none)]
       else (R.filter (fun r => rk r == lk a)).map (fun r => (a, some r))) ++
        leftMerge lk rk L R := by
  simp [leftMerge]

theorem leftMerge_unmatched_mem {α β : Type} (lk : α → String) (rk : β → String)
    (L : List α) (R : List β) :
    ∀ l ∈ L, R.filter (fun r => rk r == lk l) = [] →
      (l, (none : Option β)) ∈ leftMerge lk rk L R := by
  intro l hl hempty
  induction L with
  | nil => simp at hl
  | cons a as ih =>
    rw [leftMerge_cons]
    rcases List.mem_cons.mp hl with rfl | hmem
    · rw [hempty]
      simp
    · exact List.mem_append_right _ (ih hmem)

/-- C1 amended: when every left key matches at most one right record,
the left-outer merge preserves the left record set exactly: projecting
the output to its left component returns the left input itself (so the
length is the left length, no left record is duplicated or dropped),
and a left record with no match is retained paired with no right
record. -/
theorem claim_join_preserves_left_cardinality_amended {α β : Type}
    (lk : α → String) (rk : β → String) (L : List α) (R : List β)
    (huniq : ∀ l ∈ L, (R.filter (fun r => rk r == lk l)).length ≤ 1) :
    (leftMerge lk rk L R).map Prod.fst = L ∧
    (leftMerge lk rk L R).length = L.length ∧
    (∀ l ∈ L, R.filter (fun r => rk r == lk l) = [] →
        (l, (none : Option β)) ∈ leftMerge lk rk L R) := by
  have hmap : (leftMerge lk rk L R).map Prod.fst = L := by
    induction L with
    | nil => rfl
    | cons a as ih =>
      have ha := huniq a (List.mem_cons_self a as)
      have has : ∀ l ∈ as, (R.filter (fun r => rk r == lk l)).length ≤ 1 :=
        fun l hl => huniq l (List.mem_cons_of_mem a hl)
      rw [leftMerge_cons, List.map_append, ih has]
      cases hms : R.filter (fun r => rk r == lk a) with
      | nil => simp [hms]
      | cons m ms =>
        rw [hms] at ha
        simp only [List.length_cons] at ha
        have : ms = [] := List.length_eq_zero.mp (by omega)
        subst this
        simp [hms]
  refine ⟨hmap, ?_, ?_⟩
  · have := congrArg List.length hmap
    simpa using this
  · exact leftMerge_unmatched_mem lk rk L R

/-- Witness for the amended C1 at a concrete input with a unique right
key and one unmatched left record. -/
theorem claim_join_preserves_left_cardinality_amended_witness :
    (∀ l ∈ (["doi:1", "doi:2"] : List String),
        (([("doi:1", "PubOne")] : List (String × String)).filter
          (fun r => r.1 == l)).length ≤ 1) ∧
    (leftMerge (fun l => l) (fun r => r.1) ["doi:1", "doi:2"]
        [("doi:1", "PubOne")]).map Prod.fst = ["doi:1", "doi:2"] :=
  ⟨by decide,
   (claim_join_preserves_left_cardinality_amended (fun l => l) (fun r => r.1)
      ["doi:1", "doi:2"] [("doi:1", "PubOne")] (by decide)).1⟩

/-- Counterexample to C3: on an input where two right records share a
matched key, the merge of the notebooks does not fail with any
configuration error; it returns a defined record set holding one output
row per matching right record (the left record is silently duplicated,
and no single match is picked). -/
theorem claim_join_ambiguous_counterexample :
    leftMerge (fun l => l) (fun r => r.1) ["issn:0001"]
        [("issn:0001", "Journal A"), ("issn:0001", "Journal B")] =
      [("issn:0001", some ("issn:0001", "Journal A")),
       ("issn:0001", some ("issn:0001", "Journal B"))] := by
  decide

/-- C3 amended: the merge never signals an ambiguity error; it is a
total function whose output length is, for each left record, the number
of matching right records (or one when there is no match), and every
produced match pairs a left record with a right record from the right
set whose key equals the left key. -/
theorem claim_join_ambiguous_amended {α β : Type}
    (lk : α → String) (rk : β → String) (L : List α) (R : List β) :
    (leftMerge lk rk L R).length =
      (L.map (fun l => max (R.filter (fun r => rk r == lk l)).length 1)).sum ∧
    (∀ p ∈ leftMerge lk rk L R, ∀ r : β, p.2 = some r →
        rk r = lk p.1 ∧ r ∈ R) := by
  constructor
  · induction L with
    | nil => rfl
    | cons a as ih =>
      rw [leftMerge_cons]
      simp only [List.map_cons, List.sum_cons, List.length_append, ih]
      cases hms : R.filter (fun r => rk r == lk a) with
      | nil => simp
      | cons m ms => simp [Nat.max_eq_left, Nat.succ_le_succ (Nat.zero_le _)]
  · intro p hp r hr
    induction L with
    | nil => simp [leftMerge] at hp
    | cons a as ih =>
      rw [leftMerge_cons] at hp
      rcases List.mem_append.mp hp with hhead | htail
      · cases hms : R.filter (fun r => rk r == lk a) with
        | nil =>
          rw [hms] at hhead
          simp only [List.isEmpty_nil, if_true, List.mem_singleton] at hhead
          rw [hhead] at hr
          simp at hr
        | cons m ms =>
          rw [hms] at hhead
          simp only [List.isEmpty_cons, Bool.false_eq_true, if_false,
            List.mem_map] at hhead
          obtain ⟨r', hr', heq⟩ := hhead
          have hr'' : r' ∈ R.filter (fun r => rk r == lk a) := by
            rw [hms]; exact hr'
          have hpred := List.of_mem_filter hr''
          have hmem := List.mem_of_mem_filter hr''
          subst heq
          simp only at hr
          cases hr
          exact ⟨by simpa using hpred, hmem⟩
      · exact ih htail

/-- Witness for the amended C3 at a concrete matched input. -/
theorem claim_join_ambiguous_amended_witness :
    (("0001-1111", some ("0001-1111", "CFG")) ∈
        leftMerge (fun l => l) (fun r : String × String => r.1)
          ["0001-1111"] [("0001-1111", "CFG")]) ∧
    (("0001-1111", "CFG").1 = "0001-1111" ∧
      ("0001-1111", "CFG") ∈ [("0001-1111", "CFG")]) :=
  ⟨by decide,
   (claim_join_ambiguous_amended (fun l => l) (fun r => r.1)
      ["0001-1111"] [("0001-1111", "CFG")]).2
     ("0001-1111", some ("0001-1111", "CFG")) (by decide)
     ("0001-1111", "CFG") rfl⟩

/-- An RDF node in object position: either a resource (an IRI, as built
by rdflib's URIRef) or a literal value. -/
inductive RDFNode : Type where
  | res : String → RDFNode
  | lit : String → RDFNode
deriving DecidableEq

/-- A subject-predicate-object statement; in the notebook subjects and
predicates are always resources, so plain IRI strings suffice there. -/
structure Triple : Type where
  subj : String
  pred : String
  obj : RDFNode
deriving DecidableEq

/-- The reserved type-predicate provided by rdflib as RDF.type. -/
def RDF.type : String := "http://www.w3.org/1999/02/22-rdf-syntax-ns#type"

def JournalArticle : String := "https://schema.org/ScholarlyArticle"

def BookChapter : String := "https://schema.org/Chapter"

def Journal : String := "https://schema.org/Periodical"

def Book : String := "https://schema.org/Book"

def publicationYear : String := "https://schema.org/datePublished"

def issue : String := "https://schema.org/issueNumber"

def volume : String := "https://schema.org/volumeNumber"

def identifier : String := "https://schema.org/identifier"

def name : String := "https://schema.org/name"

def publicationVenue : String := "https://schema.org/isPartOf"

/-- The configured base URL of all created resources. -/
def base_url : String := "https://comp-data.github.io/res/"

/-- A row of the venues CSV as read with keep_default_na=False and
string dtypes: empty cells are empty strings, never NaN. -/
structure VenueRow : Type where
  id : String
  name : String
  type : String
deriving DecidableEq

/-- A row of the publications CSV as read with keep_default_na=False;
the publication year column is declared with an integer dtype. -/
structure PubRow : Type where
  doi : String
  title : String
  publicationYear : Int
  publicationVenue : String
  type : String
  issue : String
  volume : String
deriving DecidableEq

/-- Python str() on an int value (used for the publication year). -/
def pyStrInt (z : Int) : String :=
  match z with
  | Int.ofNat n => pyStr n
  | Int.negSucc n => "-" ++ pyStr (n + 1)

/-- The three statements the venue loop adds for one venue row at index
idx: its type (Journal when the type cell is journal, Book otherwise),
its name as a literal, and its id as a literal. -/
def venueRowTriples (idx : Nat) (row : VenueRow) : List Triple :=
  [Triple.mk (base_url ++ ("venue-" ++ pyStr idx)) RDF.type
     (RDFNode.res (if row.type == "journal" then Journal else Book)),
   Triple.mk (base_url ++ ("venue-" ++ pyStr idx)) name (RDFNode.lit row.name),
   Triple.mk (base_url ++ ("venue-" ++ pyStr idx)) identifier (RDFNode.lit row.id)]

/-- The venue loop: walks the venue rows with their indices, adding the
triples of each row to the graph and recording, in the
venue_internal_id dictionary, the binding of the row's id column to the
subject resource of that venue. -/
def populateVenuesFrom (idx : Nat) (g : List Triple)
    (d : List (String × String)) : List VenueRow → List Triple × List (String × String)
  | [] => (g, d)
  | row :: rest =>
      populateVenuesFrom (idx + 1) (g ++ venueRowTriples idx row)
        (d ++ [(row.id, base_url ++ ("venue-" ++ pyStr idx))]) rest

def populateVenues (venues : List VenueRow) : List Triple × List (String × String) :=
  populateVenuesFrom 0 [] [] venues

/-- Lookup in the venue_internal_id dictionary: the latest binding of a
key wins, as in a Python dict built by repeated assignment. -/
def dictGet (d : List (String × String)) (k : String) : Option String :=
  ((d.filter (fun p => p.1 == k)).getLast?).map Prod.snd

/-- The statements the publication loop emits for one publication row at
index idx, in the order of the notebook: for a journal article the type
statement followed by the issue and volume literals (added
unconditionally for this branch), otherwise only the type statement;
then the title under the name predicate, the doi under the identifier
predicate, the year cast to a string; finally the relationship to the
venue resource found in the dictionary.  A missing dictionary key is
Python's KeyError: the earlier statements of the row are already in the
graph and the run stops. -/
def pubRowTriples (vdict : List (String × String)) (idx : Nat) (row : PubRow) :
    List Triple × Option String :=
  (match dictGet vdict row.publicationVenue with
   | none => fun gpre => (gpre, some "KeyError")
   | some vsubj => fun gpre =>
      (gpre ++ [Triple.mk (base_url ++ ("publication-" ++ pyStr idx))
        publicationVenue (RDFNode.res vsubj)], none))
  ((if row.type == "journal article" then
      [Triple.mk (base_url ++ ("publication-" ++ pyStr idx)) RDF.type
         (RDFNode.res JournalArticle),
       Triple.mk (base_url ++ ("publication-" ++ pyStr idx)) issue
         (RDFNode.lit row.issue),
       Triple.mk (base_url ++ ("publication-" ++ pyStr idx)) volume
         (RDFNode.lit row.volume)]
    else
      [Triple.mk (base_url ++ ("publication-" ++ pyStr idx)) RDF.type
         (RDFNode.res BookChapter)]) ++
   [Triple.mk (base_url ++ ("publication-" ++ pyStr idx)) name
      (RDFNode.lit row.title),
    Triple.mk (base_url ++ ("publication-" ++ pyStr idx)) identifier
      (RDFNode.lit row.doi),
    Triple.mk (base_url ++ ("publication-" ++ pyStr idx)) publicationYear
      (RDFNode.lit (pyStrInt row.publicationYear))])

/-- The publication loop over all rows, stopping at the first KeyError
with the statements emitted so far. -/
def populatePublicationsFrom (vdict : List (String × String)) (idx : Nat)
    (g : List Triple) : List PubRow → List Triple × Option String
  | [] => (g, none)
  | row :: rest =>
      match pubRowTriples vdict idx row with
      | (ts, some e) => (g ++ ts, some e)
      | (ts, none) => populatePublicationsFrom vdict (idx + 1) (g ++ ts) rest

theorem populateVenuesFrom_snd (venues : List VenueRow) :
    ∀ (idx : Nat) (g : List Triple) (d : List (String × String)),
      (populateVenuesFrom idx g d venues).2 =
        d ++ (venues.enumFrom idx).map
          (fun p => (p.2.id, base_url ++ ("venue-" ++ pyStr p.1))) := by
  induction venues with
  | nil => intro idx g d; simp [populateVenuesFrom]
  | cons row rest ih =>
    intro idx g d
    rw [populateVenuesFrom, ih, List.enumFrom_cons]
    simp

theorem dictGet_some_mem {d : List (String × String)} {k v : String}
    (h : dictGet d k = some v) : (k, v) ∈ d := by
  unfold dictGet at h
  rcases Option.map_eq_some'.mp h with ⟨pv, hlast, hsnd⟩
  have hmemf : pv ∈ d.filter (fun p => p.1 == k) := by
    obtain ⟨hne, heq⟩ := List.mem_getLast?_eq_getLast (Option.mem_def.mpr hlast)
    rw [heq]
    exact List.getLast_mem hne
  have hmem := List.mem_of_mem_filter hmemf
  have hpred := List.of_mem_filter hmemf
  have hfst : pv.1 = k := by simpa using hpred
  have : pv = (k, v) := by
    cases pv
    simp only at hfst hsnd
    rw [hfst, hsnd]
  rw [← this]
  exact hmem

theorem venueDict_mem_spec (venues : List VenueRow) :
    ∀ (idx : Nat) (k v : String),
      (k, v) ∈ (venues.enumFrom idx).map
        (fun p => (p.2.id, base_url ++ ("venue-" ++ pyStr p.1))) →
      ∃ j vrow, venues[j]? = some vrow ∧ vrow.id = k ∧
        v = base_url ++ ("venue-" ++ pyStr (idx + j)) := by
  induction venues with
  | nil => intro idx k v h; simp at h
  | cons row rest ih =>
    intro idx k v h
    rw [List.enumFrom_cons, List.map_cons, List.mem_cons] at h
    rcases h with hhead | htail
    · refine ⟨0, row, by simp, ?_, ?_⟩
      · have h1 := congrArg Prod.fst hhead
        simpa using h1.symm
      · have h2 := congrArg Prod.snd hhead
        simpa using h2
    · obtain ⟨j, vrow, hget, hid, hv⟩ := ih (idx + 1) k v htail
      exact ⟨j + 1, vrow, by simpa using hget, hid, by
        rw [hv]
        have : idx + 1 + j = idx + (j + 1) := by omega
        rw [this]⟩

/-- If the venue dictionary built by the venue loop maps a key to a
value, then the key is the id column of some venue row and the value is
that venue's subject resource IRI. -/
theorem venueDict_lookup_spec (venues : List VenueRow) (k v : String)
    (h : dictGet (populateVenues venues).2 k = some v) :
    ∃ j vrow, venues[j]? = some vrow ∧ vrow.id = k ∧
      v = base_url ++ ("venue-" ++ pyStr j) := by
  rw [populateVenues, populateVenuesFrom_snd, List.nil_append] at h
  obtain ⟨j, vrow, hget, hid, hv⟩ := venueDict_mem_spec venues 0 k v
    (dictGet_some_mem h)
  exact ⟨j, vrow, hget, hid, by simpa using hv⟩

/-- Number of non-null attributes of a publication record, following
the specification's wording: the seven CSV columns are counted, an
empty string cell being a null attribute; the year column is read with
an integer dtype and is therefore always present. -/
def nonNullAttrCount (row : PubRow) : Nat :=
  (if row.doi = "" then 0 else 1) + (if row.title = "" then 0 else 1) +
    1 + (if row.publicationVenue = "" then 0 else 1) +
    (if row.type = "" then 0 else 1) + (if row.issue = "" then 0 else 1) +
    (if row.volume = "" then 0 else 1)

/-- C2 evaluated at its failing input: a publication row of type
journal article whose issue cell is empty still produces a statement
with the issue predicate, carrying the empty string as a literal, in
the graph destination — against the notebook's own prose, which says no
statement must be created for an empty cell. -/
theorem claim_no_empty_value_persisted_failing :
    Triple.mk (base_url ++ ("publication-" ++ pyStr 0)) issue (RDFNode.lit "") ∈
      (pubRowTriples [("1531-6912", base_url ++ ("venue-" ++ pyStr 0))] 0
        (PubRow.mk "doi:10.1002/cfg.304" "Development of Computational Tools" 2003
          "1531-6912" "journal article" "" "4")).1 := by
  simp [pubRowTriples, dictGet]

/-- Counterexample to C7 as stated: for a book-chapter row whose issue
cell is not empty, the graph destination receives five statements while
the record has six non-null attributes (the issue attribute is dropped
because only the journal-article branch emits it), so the emitted
statements are not one per non-null attribute. -/
theorem claim_graph_statement_shape_counterexample :
    ((pubRowTriples [("9780470291092", base_url ++ ("venue-" ++ pyStr 2))] 0
        (PubRow.mk "doi:10.1002/9780470291092.ch20" "Mechanisms of Toughening" 1981
          "9780470291092" "book chapter" "9" "")).1).length = 5 ∧
    nonNullAttrCount
        (PubRow.mk "doi:10.1002/9780470291092.ch20" "Mechanisms of Toughening" 1981
          "9780470291092" "book chapter" "9" "") = 6 := by
  constructor
  · simp [pubRowTriples, dictGet]
  · decide

/-- C7 amended: in graph mode, for a publication record whose venue
reference is found in the venue dictionary, whose mandatory attribute
cells are non-empty, and whose issue and volume cells are non-empty
exactly when the record is a journal article, the loop emits one
statement per non-null attribute of the record; the subject of every
emitted statement is the base URL concatenated with the record's
synthetic identifier; the type cell is emitted as a statement under the
reserved type-predicate whose object maps journal articles to the
ScholarlyArticle class and the other records to the Chapter class; and
the venue relationship is emitted as a statement whose object is the
resource (not a literal) that is the subject IRI of a venue record
whose id column equals the record's venue reference. -/
theorem claim_graph_statement_shape_amended
    (venues : List VenueRow) (idx : Nat) (row : PubRow) (vsubj : String)
    (hv : dictGet (populateVenues venues).2 row.publicationVenue = some vsubj)
    (hja : row.type = "journal article" → row.issue ≠ "" ∧ row.volume ≠ "")
    (hnja : row.type ≠ "journal article" → row.issue = "" ∧ row.volume = "")
    (hdoi : row.doi ≠ "") (htitle : row.title ≠ "")
    (htype : row.type ≠ "") (hpv : row.publicationVenue ≠ "") :
    (pubRowTriples (populateVenues venues).2 idx row).2 = none ∧
    ((pubRowTriples (populateVenues venues).2 idx row).1).length =
      nonNullAttrCount row ∧
    (∀ t ∈ (pubRowTriples (populateVenues venues).2 idx row).1,
        t.subj = base_url ++ ("publication-" ++ pyStr idx)) ∧
    Triple.mk (base_url ++ ("publication-" ++ pyStr idx)) RDF.type
        (RDFNode.res (if row.type = "journal article" then JournalArticle
          else BookChapter)) ∈
      (pubRowTriples (populateVenues venues).2 idx row).1 ∧
    (∃ j vrow, venues[j]? = some vrow ∧ vrow.id = row.publicationVenue ∧
        vsubj = base_url ++ ("venue-" ++ pyStr j) ∧
        Triple.mk (base_url ++ ("publication-" ++ pyStr idx)) publicationVenue
          (RDFNode.res vsubj) ∈
          (pubRowTriples (populateVenues venues).2 idx row).1) := by
  obtain ⟨j, vrow, hget, hid, hvs⟩ := venueDict_lookup_spec venues _ _ hv
  by_cases hj : row.type = "journal article"
  · have hiv := hja hj
    refine ⟨?_, ?_, ?_, ?_, ?_⟩
    · simp [pubRowTriples, hv, hj]
    · rw [nonNullAttrCount]
      simp [pubRowTriples, hv, hj, hdoi, htitle, htype, hpv, hiv.1, hiv.2]
    · intro t ht
      simp only [pubRowTriples, hv, hj] at ht
      simp only [List.mem_append, List.mem_cons, List.not_mem_nil,
        or_false, beq_self_eq_true, if_true] at ht
      rcases ht with ((rfl | rfl | rfl) | rfl | rfl | rfl) | rfl <;> rfl
    · simp [pubRowTriples, hv, hj]
    · exact ⟨j, vrow, hget, hid, hvs, by simp [pubRowTriples, hv, hj]⟩
  · have hiv := hnja hj
    refine ⟨?_, ?_, ?_, ?_, ?_⟩
    · simp [pubRowTriples, hv, hj]
    · rw [nonNullAttrCount]
      simp [pubRowTriples, hv, hj, hdoi, htitle, htype, hpv, hiv.1, hiv.2]
    · intro t ht
      have hb : (row.type == "journal article") = false := by
        simpa using hj
      simp only [pubRowTriples, hv, hj] at ht
      simp only [hb, Bool.false_eq_true, if_false, List.mem_append,
        List.mem_cons, List.not_mem_nil, or_false] at ht
      rcases ht with (rfl | rfl | rfl | rfl) | rfl <;> rfl
    · simp [pubRowTriples, hv, hj]
    · exact ⟨j, vrow, hget, hid, hvs, by simp [pubRowTriples, hv, hj]⟩

/-- Witness for the amended C7 at a concrete one-venue, one-publication
input. -/
theorem claim_graph_statement_shape_amended_witness :
    dictGet (populateVenues [VenueRow.mk "1531-6912"
        "Comparative and Functional Genomics" "journal"]).2 "1531-6912" =
      some (base_url ++ ("venue-" ++ pyStr 0)) ∧
    (pubRowTriples (populateVenues [VenueRow.mk "1531-6912"
        "Comparative and Functional Genomics" "journal"]).2 0
      (PubRow.mk "doi:10.1002/cfg.304" "Development of Computational Tools" 2003
        "1531-6912" "journal article" "4" "4")).2 = none ∧
    ((pubRowTriples (populateVenues [VenueRow.mk "1531-6912"
        "Comparative and Functional Genomics" "journal"]).2 0
      (PubRow.mk "doi:10.1002/cfg.304" "Development of Computational Tools" 2003
        "1531-6912" "journal article" "4" "4")).1).length =
      nonNullAttrCount (PubRow.mk "doi:10.1002/cfg.304"
        "Development of Computational Tools" 2003
        "1531-6912" "journal article" "4" "4") :=
  ⟨rfl,
   (claim_graph_statement_shape_amended
      [VenueRow.mk "1531-6912" "Comparative and Functional Genomics" "journal"] 0
      (PubRow.mk "doi:10.1002/cfg.304" "Development of Computational Tools" 2003
        "1531-6912" "journal article" "4" "4")
      (base_url ++ ("venue-" ++ pyStr 0)) rfl (by decide) (by decide)
      (by decide) (by decide) (by decide) (by decide)).1,
   (claim_graph_statement_shape_amended
      [VenueRow.mk "1531-6912" "Comparative and Functional Genomics" "journal"] 0
      (PubRow.mk "doi:10.1002/cfg.304" "Development of Computational Tools" 2003
        "1531-6912" "journal article" "4" "4")
      (base_url ++ ("venue-" ++ pyStr 0)) rfl (by decide) (by decide)
      (by decide) (by decide) (by decide) (by decide)).2.1⟩

/-- A SQLite value as bound by the insert statements of the library
solutions script: a text value, or NULL (a NaN cell of a data frame
read without keep_default_na=False is bound as NULL). -/
inductive SQLValue : Type where
  | text : String → SQLValue
  | null : SQLValue
deriving DecidableEq

/-- A row of the Publisher table of the library script, whose schema is
id TEXT PRIMARY KEY, name TEXT NOT NULL, unique_id TEXT NOT NULL. -/
structure PublisherRec : Type where
  id : SQLValue
  name : SQLValue
  unique_id : SQLValue
deriving DecidableEq

/-- A row of the BibliographicResource table of the library script:
id TEXT PRIMARY KEY, title TEXT NOT NULL, type TEXT, publisher TEXT,
unique_id TEXT NOT NULL, with a foreign key on publisher that SQLite
does not enforce in its default configuration. -/
structure BiblioRec : Type where
  id : SQLValue
  title : SQLValue
  type : SQLValue
  publisher : SQLValue
  unique_id : SQLValue
deriving DecidableEq

/-- The two tables of library.db, each a list of rows in insertion
order (the order a SELECT * returns, rows being stored by rowid). -/
structure LibraryDB : Type where
  publisherTable : List PublisherRec
  biblioTable : List BiblioRec
deriving DecidableEq

def emptyLibraryDB : LibraryDB :=
  LibraryDB.mk [] []

/-- One INSERT INTO Publisher: SQLite rejects a NULL in a NOT NULL
column and a duplicate non-NULL PRIMARY KEY value (NULL primary keys
are admitted by SQLite in a non-integer primary key column). -/
def insertPublisher (db : LibraryDB) (r : PublisherRec) : Except String LibraryDB :=
  if r.name = SQLValue.null then
    Except.error "NOT NULL constraint failed: Publisher.name"
  else if r.unique_id = SQLValue.null then
    Except.error "NOT NULL constraint failed: Publisher.unique_id"
  else if r.id ≠ SQLValue.null ∧ ∃ p ∈ db.publisherTable, p.id = r.id then
    Except.error "UNIQUE constraint failed: Publisher.id"
  else
    Except.ok (LibraryDB.mk (db.publisherTable ++ [r]) db.biblioTable)

/-- One INSERT INTO BibliographicResource, with the same constraint
behaviour; type and publisher are nullable and the foreign key is not
checked (SQLite runs with foreign_keys off by default). -/
def insertBiblio (db : LibraryDB) (r : BiblioRec) : Except String LibraryDB :=
  if r.title = SQLValue.null then
    Except.error "NOT NULL constraint failed: BibliographicResource.title"
  else if r.unique_id = SQLValue.null then
    Except.error "NOT NULL constraint failed: BibliographicResource.unique_id"
  else if r.id ≠ SQLValue.null ∧ ∃ b ∈ db.biblioTable, b.id = r.id then
    Except.error "UNIQUE constraint failed: BibliographicResource.id"
  else
    Except.ok (LibraryDB.mk db.publisherTable (db.biblioTable ++ [r]))

/-- SELECT * FROM Publisher, all rows in stored order. -/
def selectAllPublisher (db : LibraryDB) : List PublisherRec :=
  db.publisherTable

/-- SELECT * FROM BibliographicResource, all rows in stored order. -/
def selectAllBiblio (db : LibraryDB) : List BiblioRec :=
  db.biblioTable

/-- The connection-level operations the library script performs, in
order, on its sqlite3 connection. -/
inductive ConnEvent : Type where
  | insert : ConnEvent
  | commit : ConnEvent
  | close : ConnEvent
deriving DecidableEq

/-- The publisher insert loop: one INSERT per data-frame row; a raised
constraint error propagates immediately, uncaught. -/
def insertAllPublishers (db : LibraryDB) (events : List ConnEvent) :
    List PublisherRec → LibraryDB × List ConnEvent × Option String
  | [] => (db, events, none)
  | r :: rest =>
      match insertPublisher db r with
      | Except.error e => (db, events, some e)
      | Except.ok db' => insertAllPublishers db' (events ++ [ConnEvent.insert]) rest

/-- The bibliographic-resource insert loop. -/
def insertAllBiblios (db : LibraryDB) (events : List ConnEvent) :
    List BiblioRec → LibraryDB × List ConnEvent × Option String
  | [] => (db, events, none)
  | r :: rest =>
      match insertBiblio db r with
      | Except.error e => (db, events, some e)
      | Except.ok db' => insertAllBiblios db' (events ++ [ConnEvent.insert]) rest

/-- The whole batch of the library script: connect to a fresh database
file, insert every publisher row, then every bibliographic row, then
commit and finally close the connection.  The script wraps nothing in
try/finally or with, so an insert error leaves the function before the
commit and close lines run. -/
def runLibraryBatch (pubs : List PublisherRec) (bibs : List BiblioRec) :
    LibraryDB × List ConnEvent × Option String :=
  match insertAllPublishers emptyLibraryDB [] pubs with
  | (db, events, some e) => (db, events, some e)
  | (db, events, none) =>
      match insertAllBiblios db events bibs with
      | (db', events', some e) => (db', events', some e)
      | (db', events', none) =>
          (db', events' ++ [ConnEvent.commit, ConnEvent.close], none)

/-- The SPARQL store of the graph notebook, holding the uploaded
triples; store.add appends one triple. -/
def storeAdd (store : List Triple) (t : Triple) : List Triple :=
  store ++ [t]

/-- The upload loop of the graph notebook: every triple of the
in-memory graph is added to the store, one store.add per triple. -/
def uploadGraph (store : List Triple) (g : List Triple) : List Triple :=
  g.foldl storeAdd store

theorem uploadGraph_eq_append (g : List Triple) :
    ∀ store : List Triple, uploadGraph store g = store ++ g := by
  induction g with
  | nil => intro store; simp [uploadGraph]
  | cons t ts ih =>
    intro store
    rw [uploadGraph, List.foldl_cons]
    have := ih (storeAdd store t)
    rw [uploadGraph] at this
    rw [this, storeAdd]
    simp

theorem insertPublisher_ok {db : LibraryDB} {r : PublisherRec} {db' : LibraryDB}
    (h : insertPublisher db r = Except.ok db') :
    db' = LibraryDB.mk (db.publisherTable ++ [r]) db.biblioTable := by
  unfold insertPublisher at h
  split at h
  · simp at h
  · split at h
    · simp at h
    · split at h
      · simp at h
      · simp only [Except.ok.injEq] at h
        exact h.symm

theorem insertBiblio_ok {db : LibraryDB} {r : BiblioRec} {db' : LibraryDB}
    (h : insertBiblio db r = Except.ok db') :
    db' = LibraryDB.mk db.publisherTable (db.biblioTable ++ [r]) := by
  unfold insertBiblio at h
  split at h
  · simp at h
  · split at h
    · simp at h
    · split at h
      · simp at h
      · simp only [Except.ok.injEq] at h
        exact h.symm

theorem insertAllPublishers_ok (pubs : List PublisherRec) :
    ∀ (db : LibraryDB) (events : List ConnEvent) (db' : LibraryDB)
      (events' : List ConnEvent),
      insertAllPublishers db events pubs = (db', events', none) →
      db'.publisherTable = db.publisherTable ++ pubs ∧
      db'.biblioTable = db.biblioTable ∧
      events' = events ++ List.replicate pubs.length ConnEvent.insert := by
  induction pubs with
  | nil =>
    intro db events db' events' h
    simp only [insertAllPublishers, Prod.mk.injEq] at h
    obtain ⟨h1, h2, _⟩ := h
    subst h1; subst h2
    simp
  | cons r rest ih =>
    intro db events db' events' h
    rw [insertAllPublishers] at h
    cases hins : insertPublisher db r with
    | error e => rw [hins] at h; simp at h
    | ok db1 =>
      rw [hins] at h
      obtain ⟨h1, h2, h3⟩ := ih db1 (events ++ [ConnEvent.insert]) db' events' h
      have hdb1 := insertPublisher_ok hins
      subst hdb1
      refine ⟨by simpa using h1, by simpa using h2, ?_⟩
      rw [h3, List.length_cons, List.replicate_succ, List.append_assoc]
      rfl

theorem insertAllBiblios_ok (bibs : List BiblioRec) :
    ∀ (db : LibraryDB) (events : List ConnEvent) (db' : LibraryDB)
      (events' : List ConnEvent),
      insertAllBiblios db events bibs = (db', events', none) →
      db'.publisherTable = db.publisherTable ∧
      db'.biblioTable = db.biblioTable ++ bibs ∧
      events' = events ++ List.replicate bibs.length ConnEvent.insert := by
  induction bibs with
  | nil =>
    intro db events db' events' h
    simp only [insertAllBiblios, Prod.mk.injEq] at h
    obtain ⟨h1, h2, _⟩ := h
    subst h1; subst h2
    simp
  | cons r rest ih =>
    intro db events db' events' h
    rw [insertAllBiblios] at h
    cases hins : insertBiblio db r with
    | error e => rw [hins] at h; simp at h
    | ok db1 =>
      rw [hins] at h
      obtain ⟨h1, h2, h3⟩ := ih db1 (events ++ [ConnEvent.insert]) db' events' h
      have hdb1 := insertBiblio_ok hins
      subst hdb1
      refine ⟨by simpa using h1, by simpa using h2, ?_⟩
      rw [h3, List.length_cons, List.replicate_succ, List.append_assoc]
      rfl

theorem insertAllPublishers_events (pubs : List PublisherRec) :
    ∀ (db : LibraryDB) (events : List ConnEvent),
      ∃ k, (insertAllPublishers db events pubs).2.1 =
        events ++ List.replicate k ConnEvent.insert := by
  induction pubs with
  | nil => intro db events; exact ⟨0, by simp [insertAllPublishers]⟩
  | cons r rest ih =>
    intro db events
    rw [insertAllPublishers]
    cases hins : insertPublisher db r with
    | error e => exact ⟨0, by simp⟩
    | ok db1 =>
      obtain ⟨k, hk⟩ := ih db1 (events ++ [ConnEvent.insert])
      exact ⟨k + 1, by
        rw [hk, List.replicate_succ, List.append_assoc]
        rfl⟩

theorem insertAllBiblios_events (bibs : List BiblioRec) :
    ∀ (db : LibraryDB) (events : List ConnEvent),
      ∃ k, (insertAllBiblios db events bibs).2.1 =
        events ++ List.replicate k ConnEvent.insert := by
  induction bibs with
  | nil => intro db events; exact ⟨0, by simp [insertAllBiblios]⟩
  | cons r rest ih =>
    intro db events
    rw [insertAllBiblios]
    cases hins : insertBiblio db r with
    | error e => exact ⟨0, by simp⟩
    | ok db1 =>
      obtain ⟨k, hk⟩ := ih db1 (events ++ [ConnEvent.insert])
      exact ⟨k + 1, by
        rw [hk, List.replicate_succ, List.append_assoc]
        rfl⟩

/-- Counterexample to C8: inserting a publisher row whose name is NULL
raises a constraint error; the script has no try/finally or context
manager around the connection, so the run ends in error with neither a
commit event nor a close event recorded: the connection is left open on
this error path. -/
theorem claim_connection_scoped_counterexample :
    (runLibraryBatch
        [PublisherRec.mk (SQLValue.text "crossref:15") SQLValue.null
          (SQLValue.text "publisher-0")] []).2.2 ≠ none ∧
    ConnEvent.commit ∉ (runLibraryBatch
        [PublisherRec.mk (SQLValue.text "crossref:15") SQLValue.null
          (SQLValue.text "publisher-0")] []).2.1 ∧
    ConnEvent.close ∉ (runLibraryBatch
        [PublisherRec.mk (SQLValue.text "crossref:15") SQLValue.null
          (SQLValue.text "publisher-0")] []).2.1 := by
  decide

/-- C8 amended: the batch of the library script commits and closes the
connection exactly on the successful path — after all inserts, the
event trace ends with a commit followed by a close; on a path where an
insert raises, the run surfaces the error and neither commit nor close
happens, leaving the connection open. -/
theorem claim_connection_scoped_amended (pubs : List PublisherRec)
    (bibs : List BiblioRec) :
    ((runLibraryBatch pubs bibs).2.2 = none →
      (runLibraryBatch pubs bibs).2.1 =
        List.replicate (pubs.length + bibs.length) ConnEvent.insert ++
          [ConnEvent.commit, ConnEvent.close]) ∧
    ((runLibraryBatch pubs bibs).2.2 ≠ none →
      ConnEvent.commit ∉ (runLibraryBatch pubs bibs).2.1 ∧
      ConnEvent.close ∉ (runLibraryBatch pubs bibs).2.1) := by
  rcases h1 : insertAllPublishers emptyLibraryDB [] pubs with ⟨db, events, err⟩
  cases err with
  | some e =>
    simp only [runLibraryBatch, h1]
    refine ⟨fun hnone => absurd hnone (by simp), fun _ => ?_⟩
    obtain ⟨k, hk⟩ := insertAllPublishers_events pubs emptyLibraryDB []
    rw [h1] at hk
    simp only [List.nil_append] at hk
    simp only [hk]
    constructor <;> intro hmem <;>
      rcases List.eq_of_mem_replicate hmem with h <;> cases h
  | none =>
    rcases h2 : insertAllBiblios db events bibs with ⟨db', events', err'⟩
    cases err' with
    | some e =>
      simp only [runLibraryBatch, h1, h2]
      refine ⟨fun hnone => absurd hnone (by simp), fun _ => ?_⟩
      obtain ⟨_, _, hev⟩ := insertAllPublishers_ok pubs emptyLibraryDB [] db events h1
      obtain ⟨k, hk⟩ := insertAllBiblios_events bibs db events
      rw [h2] at hk
      simp only [hev, List.nil_append] at hk
      rw [← List.replicate_add] at hk
      simp only [hk]
      constructor <;> intro hmem <;>
        rcases List.eq_of_mem_replicate hmem with h <;> cases h
    | none =>
      simp only [runLibraryBatch, h1, h2]
      refine ⟨fun _ => ?_, fun hne => absurd rfl hne⟩
      obtain ⟨_, _, hev⟩ := insertAllPublishers_ok pubs emptyLibraryDB [] db events h1
      obtain ⟨_, _, hev'⟩ := insertAllBiblios_ok bibs db events db' events' h2
      simp only [hev', hev, List.nil_append, ← List.replicate_add]

/-- Witness for the amended C8: a successful one-publisher, one-resource
batch commits then closes. -/
theorem claim_connection_scoped_amended_witness :
    (runLibraryBatch
        [PublisherRec.mk (SQLValue.text "crossref:15")
          (SQLValue.text "American Psychological Association")
          (SQLValue.text "publisher-0")]
        [BiblioRec.mk (SQLValue.text "doi:10.1037/e383822004-001")
          (SQLValue.text "A dataset") (SQLValue.text "dataset")
          (SQLValue.text "crossref:15") (SQLValue.text "biblio-0")]).2.2 =
      none ∧
    (runLibraryBatch
        [PublisherRec.mk (SQLValue.text "crossref:15")
          (SQLValue.text "American Psychological Association")
          (SQLValue.text "publisher-0")]
        [BiblioRec.mk (SQLValue.text "doi:10.1037/e383822004-001")
          (SQLValue.text "A dataset") (SQLValue.text "dataset")
          (SQLValue.text "crossref:15") (SQLValue.text "biblio-0")]).2.1 =
      List.replicate (1 + 1) ConnEvent.insert ++
        [ConnEvent.commit, ConnEvent.close] :=
  ⟨by decide,
   (claim_connection_scoped_amended
      [PublisherRec.mk (SQLValue.text "crossref:15")
        (SQLValue.text "American Psychological Association")
        (SQLValue.text "publisher-0")]
      [BiblioRec.mk (SQLValue.text "doi:10.1037/e383822004-001")
        (SQLValue.text "A dataset") (SQLValue.text "dataset")
        (SQLValue.text "crossref:15") (SQLValue.text "biblio-0")]).1
     (by decide)⟩

/-- C6: a successful persist followed by the read-back query returns
the records that were written, attribute for attribute, for both
destinations: SELECT * on each relational table returns exactly the
inserted rows in order, and the triple store holds exactly the triples
of the uploaded graph. -/
theorem claim_persist_roundtrip (pubs : List PublisherRec)
    (bibs : List BiblioRec) (g : List Triple)
    (hok : (runLibraryBatch pubs bibs).2.2 = none) :
    selectAllPublisher (runLibraryBatch pubs bibs).1 = pubs ∧
    selectAllBiblio (runLibraryBatch pubs bibs).1 = bibs ∧
    uploadGraph [] g = g := by
  refine ⟨?_, ?_, by simpa using uploadGraph_eq_append g []⟩ <;>
  · rcases h1 : insertAllPublishers emptyLibraryDB [] pubs with ⟨db, events, err⟩
    cases err with
    | some e =>
      rw [runLibraryBatch] at hok
      rw [h1] at hok
      simp at hok
    | none =>
      rcases h2 : insertAllBiblios db events bibs with ⟨db', events', err'⟩
      cases err' with
      | some e =>
        rw [runLibraryBatch] at hok
        rw [h1] at hok
        simp only at hok
        rw [h2] at hok
        simp at hok
      | none =>
        obtain ⟨hp1, hp2, _⟩ := insertAllPublishers_ok pubs emptyLibraryDB [] db events h1
        obtain ⟨hb1, hb2, _⟩ := insertAllBiblios_ok bibs db events db' events' h2
        simp only [runLibraryBatch, h1, h2, selectAllPublisher, selectAllBiblio]
        simp [hb1, hb2, hp1, hp2, emptyLibraryDB]

/-- Witness for C6 at a concrete one-row-per-table input and a
one-triple graph. -/
theorem claim_persist_roundtrip_witness :
    (runLibraryBatch
        [PublisherRec.mk (SQLValue.text "crossref:78")
          (SQLValue.text "Wiley") (SQLValue.text "publisher-1")]
        [BiblioRec.mk (SQLValue.text "doi:10.1002/9780470291092.ch20")
          (SQLValue.text "Mechanisms of Toughening")
          (SQLValue.text "book chapter") (SQLValue.text "crossref:78")
          (SQLValue.text "biblio-1")]).2.2 = none ∧
    selectAllPublisher (runLibraryBatch
        [PublisherRec.mk (SQLValue.text "crossref:78")
          (SQLValue.text "Wiley") (SQLValue.text "publisher-1")]
        [BiblioRec.mk (SQLValue.text "doi:10.1002/9780470291092.ch20")
          (SQLValue.text "Mechanisms of Toughening")
          (SQLValue.text "book chapter") (SQLValue.text "crossref:78")
          (SQLValue.text "biblio-1")]).1 =
      [PublisherRec.mk (SQLValue.text "crossref:78")
        (SQLValue.text "Wiley") (SQLValue.text "publisher-1")] ∧
    uploadGraph []
        [Triple.mk "https://comp-data.github.io/res/venue-2" name
          (RDFNode.lit "Proceedings")] =
      [Triple.mk "https://comp-data.github.io/res/venue-2" name
        (RDFNode.lit "Proceedings")] :=
  ⟨by decide,
   (claim_persist_roundtrip
      [PublisherRec.mk (SQLValue.text "crossref:78")
        (SQLValue.text "Wiley") (SQLValue.text "publisher-1")]
      [BiblioRec.mk (SQLValue.text "doi:10.1002/9780470291092.ch20")
        (SQLValue.text "Mechanisms of Toughening")
        (SQLValue.text "book chapter") (SQLValue.text "crossref:78")
        (SQLValue.text "biblio-1")]
      [Triple.mk "https://comp-data.github.io/res/venue-2" name
        (RDFNode.lit "Proceedings")] (by decide)).1,
   (claim_persist_roundtrip
      [PublisherRec.mk (SQLValue.text "crossref:78")
        (SQLValue.text "Wiley") (SQLValue.text "publisher-1")]
      [BiblioRec.mk (SQLValue.text "doi:10.1002/9780470291092.ch20")
        (SQLValue.text "Mechanisms of Toughening")
        (SQLValue.text "book chapter") (SQLValue.text "crossref:78")
        (SQLValue.text "biblio-1")]
      [Triple.mk "https://comp-data.github.io/res/venue-2" name
        (RDFNode.lit "Proceedings")] (by decide)).2.2⟩

/-- The Venue Python class of the data-model notebook: a set of string
identifiers and a name.  The constructor adds every identifier of the
input collection to a fresh set. -/
structure Venue : Type where
  id : Finset String
  name : String

/-- The Venue constructor: iterates the input collection, adding each
identifier to the initially empty set. -/
def Venue.ofIdentifiers (identifiers : List String) (vname : String) : Venue :=
  Venue.mk (identifiers.foldl (fun s i => insert i s) ∅) vname

/-- Venue.addId: when the identifier is not yet in the set it is added
and True is returned, otherwise the set is untouched and False is
returned.  The mutated object is returned alongside the result. -/
def Venue.addId (v : Venue) (identifier : String) : Venue × Bool :=
  if identifier ∉ v.id then (Venue.mk (insert identifier v.id) v.name, true)
  else (v, false)

/-- Venue.removeId: when the identifier is in the set it is removed and
True is returned, otherwise the set is untouched and False is
returned. -/
def Venue.removeId (v : Venue) (identifier : String) : Venue × Bool :=
  if identifier ∈ v.id then (Venue.mk (v.id.erase identifier) v.name, true)
  else (v, false)

/-- Venue.getIds: builds a fresh list holding the identifiers of the
set, sorts it in ascending order and returns it; the object itself is
untouched by the method body. -/
def Venue.getIds (v : Venue) : List String × Venue :=
  (v.id.sort (· ≤ ·), v)

/-- C9: addId returns True exactly when the identifier was not already
present, removeId returns True exactly when it was present; in both
cases True is returned exactly when the identifier set changed, and
after addId the identifier is in the set while after removeId it is
not. -/
theorem claim_venue_addId_removeId (v : Venue) (s : String) :
    ((v.addId s).2 = true ↔ s ∉ v.id) ∧
    ((v.removeId s).2 = true ↔ s ∈ v.id) ∧
    ((v.addId s).2 = true ↔ (v.addId s).1.id ≠ v.id) ∧
    ((v.removeId s).2 = true ↔ (v.removeId s).1.id ≠ v.id) ∧
    s ∈ (v.addId s).1.id ∧
    s ∉ (v.removeId s).1.id := by
  by_cases h : s ∈ v.id
  · refine ⟨?_, ?_, ?_, ?_, ?_, ?_⟩ <;>
      simp [Venue.addId, Venue.removeId, h, Finset.erase_ne_self]
  · refine ⟨?_, ?_, ?_, ?_, ?_, ?_⟩ <;>
      simp [Venue.addId, Venue.removeId, h, Finset.insert_ne_self]

/-- C10: getIds returns a list sorted in ascending order containing
exactly the elements of the identifier set, each once, and the venue
(in particular its identifier set) is unchanged by the call. -/
theorem claim_venue_getIds (v : Venue) :
    (v.getIds).1.Sorted (· ≤ ·) ∧
    (∀ s, s ∈ (v.getIds).1 ↔ s ∈ v.id) ∧
    (v.getIds).1.Nodup ∧
    (v.getIds).2 = v := by
  refine ⟨Finset.sort_sorted _ _, fun s => Finset.mem_sort _, Finset.sort_nodup _ _, rfl⟩
